import Mathlib

/-!
Verification development for the hazard MCP rule engine
(`src/main.py` of the pothole-mcp-server repository).

The engine's real arithmetic (Python floats) is modelled over the exact
rationals `ℚ`; Python's `round(x, n)` is modelled as rounding half up at
`n` decimal places (no concrete value settled below falls on a tie, so
the tie-breaking convention is immaterial for every result proved here).
Hazard records are modelled with the field types of the data model:
`severity` is an integer column that may be NULL, the text columns may be
NULL. Python truthiness (`x or default`) is embedded explicitly where the
source relies on it.
-/

namespace HazardMCP

/-- Rounding of a rational to two decimal places (models Python `round(x, 2)`). -/
def round2 (q : ℚ) : ℚ := ((⌊q * 100 + 1/2⌋ : ℤ) : ℚ) / 100

/-- Rounding to three decimal places (models Python `round(x, 3)`). -/
def round3 (q : ℚ) : ℚ := ((⌊q * 1000 + 1/2⌋ : ℤ) : ℚ) / 1000

/-- Rounding to four decimal places (models Python `round(x, 4)`). -/
def round4 (q : ℚ) : ℚ := ((⌊q * 10000 + 1/2⌋ : ℤ) : ℚ) / 10000

example : round2 (1165733/1000) = 116573/100 := by norm_num [round2]
example : round2 (-3) = -3 := by norm_num [round2]

/-- One crew entry of a profile (`{"role": ..., "count": ...}`). -/
structure Crew where
  role : String
  count : Nat
deriving DecidableEq, Repr

/-- Static per-hazard-type table (`HAZARD_PROFILES` values in `src/main.py`). -/
structure HazardProfile where
  crew : List Crew
  base_hours : ℚ
  equipment_hourly : ℚ
  labor_hourly : ℚ
  traffic_ctrl_hourly : ℚ
  material_baseline : ℚ
  materials : List String
  steps : List String
deriving DecidableEq, Repr

/-- The `"pothole"` entry of `HAZARD_PROFILES`. -/
def potholeProfile : HazardProfile where
  crew := [⟨"Lead/Safety", 1⟩, ⟨"Patcher/Laborer", 1⟩, ⟨"Truck Operator", 1⟩]
  base_hours := 1
  equipment_hourly := 65
  labor_hourly := 90
  traffic_ctrl_hourly := 55
  material_baseline := 240
  materials := ["Hot mix/cold patch", "Tack (as needed)", "Broom/shovel", "Cones/signage"]
  steps := ["Traffic control setup", "Prepare/clean defect", "Place material",
            "Compact & finish", "Cleanup & reopen"]

/-- The `"flooding"` entry of `HAZARD_PROFILES`. -/
def floodingProfile : HazardProfile where
  crew := [⟨"Lead/Safety", 1⟩, ⟨"Pump Operator", 1⟩]
  base_hours := 13/10
  equipment_hourly := 70
  labor_hourly := 90
  traffic_ctrl_hourly := 55
  material_baseline := 60
  materials := ["Portable pump/hose", "Sandbags as needed", "Cones/signage"]
  steps := ["Traffic control", "Assess blockage", "Pump/clear inlet",
            "Place temp mitigation", "Cleanup/monitor"]

/-- The `"debris"` entry of `HAZARD_PROFILES`. -/
def debrisProfile : HazardProfile where
  crew := [⟨"Lead/Safety", 1⟩, ⟨"Laborer", 1⟩]
  base_hours := 4/5
  equipment_hourly := 55
  labor_hourly := 85
  traffic_ctrl_hourly := 50
  material_baseline := 40
  materials := ["Chainsaw (if needed)", "Broom/shovel", "Trash bags", "Cones/signage"]
  steps := ["Traffic control", "Segment and remove debris", "Load/haul or stage",
            "Sweep/cleanup", "Reopen"]

/-- The `"damaged_signage"` entry of `HAZARD_PROFILES`. -/
def damagedSignageProfile : HazardProfile where
  crew := [⟨"Lead/Safety", 1⟩, ⟨"Installer", 1⟩]
  base_hours := 9/10
  equipment_hourly := 50
  labor_hourly := 85
  traffic_ctrl_hourly := 50
  material_baseline := 180
  materials := ["Sign panel/post", "Hardware/anchors", "Cones/signage"]
  steps := ["Traffic control", "Remove damaged hardware", "Install/align new sign",
            "Tighten & verify sightlines", "Cleanup"]

/-- The `HAZARD_PROFILES` dictionary, as an association list in source order. -/
def HAZARD_PROFILES : List (String × HazardProfile) :=
  [("pothole", potholeProfile), ("flooding", floodingProfile),
   ("debris", debrisProfile), ("damaged_signage", damagedSignageProfile)]

/-- A row of the `hazards` table, typed per the data model: `severity` is an
integer column that may be NULL; the text and image columns may be NULL. -/
structure HazardRecord where
  id : String
  hazard_type : Option String
  severity : Option Int
  location : Option String
  status : Option String
  description : Option String
  images : Option (List String)
  created_at : Option String
deriving DecidableEq, Repr

/-- Python `int(h.get("severity") or 3)`: both a NULL severity and a stored 0
are falsy, so both fall back to 3. -/
def sevOrDefault : Option Int → Int
  | none => 3
  | some n => if n = 0 then 3 else n

/-- Model of Python `str.lower()` (character-wise lowercasing; the hazard tags
involved are ASCII). -/
def lowerStr (s : String) : String := ⟨s.data.map Char.toLower⟩

/-- Model of Python `str.strip()`: remove leading and trailing whitespace. -/
def stripStr (s : String) : String :=
  ⟨((s.data.dropWhile Char.isWhitespace).reverse.dropWhile Char.isWhitespace).reverse⟩

/-- Source `_get_profile`: `(hazard_type or "").strip().lower()` then dictionary
lookup with the pothole profile as the default. -/
def get_profile (hazard_type : Option String) : HazardProfile :=
  (HAZARD_PROFILES.lookup (lowerStr (stripStr (hazard_type.getD "")))).getD potholeProfile

/-- Source `_severity_scale`: clamp severity into `[0,10]`, then clamp the
affine map `0.6 + 0.25 s` into `[0.6, 3.0]`. -/
def severity_scale (sev : Int) : ℚ :=
  let s : Int := max 0 (min 10 sev)
  max (3/5) (min 3 (3/5 + (1/4) * (s : ℚ)))

example : get_profile (some "DEBRIS") = debrisProfile := rfl
example : get_profile (some " debris ") = debrisProfile := rfl
example : get_profile (some "sinkhole") = potholeProfile := rfl
example : severity_scale 8 = 13/5 := by norm_num [severity_scale]
example : severity_scale 10 = 3 := by norm_num [severity_scale]

/-! The local bindings of `_build_plan_for` are factored into named
definitions, composed exactly as the source composes them. -/

/-- The `scale` binding of `_build_plan_for`. -/
def planScale (h : HazardRecord) : ℚ := severity_scale (sevOrDefault h.severity)

/-- The `base_hours` binding of `_build_plan_for`: `prof["base_hours"] * scale`. -/
def planHours (h : HazardRecord) : ℚ := (get_profile h.hazard_type).base_hours * planScale h

/-- The `material_cost` binding: `material_baseline * (0.6 + 0.4 * scale)`. -/
def planMaterialCost (h : HazardRecord) : ℚ :=
  (get_profile h.hazard_type).material_baseline * (3/5 + (2/5) * planScale h)

/-- The `labor_cost` binding: `labor_hourly * base_hours`. -/
def planLaborCost (h : HazardRecord) : ℚ :=
  (get_profile h.hazard_type).labor_hourly * planHours h

/-- The `equipment_cost` binding: `equipment_hourly * max(0.6, 0.5 * base_hours)`. -/
def planEquipmentCost (h : HazardRecord) : ℚ :=
  (get_profile h.hazard_type).equipment_hourly * max (3/5) ((1/2) * planHours h)

/-- The `traffic_ctrl_cost` binding: `traffic_ctrl_hourly * max(0.5, 0.6 * base_hours)`. -/
def planTrafficCost (h : HazardRecord) : ℚ :=
  (get_profile h.hazard_type).traffic_ctrl_hourly * max (1/2) ((3/5) * planHours h)

/-- The `subtotal` binding: the four cost components plus the fixed
mobilization charge of 120. -/
def planSubtotal (h : HazardRecord) : ℚ :=
  planMaterialCost h + planLaborCost h + planEquipmentCost h + planTrafficCost h + 120

/-- The `contingency` binding: `0.12 * subtotal`. -/
def planContingency (h : HazardRecord) : ℚ := (12/100) * planSubtotal h

/-- The `ohp` binding: `0.15 * subtotal`. -/
def planOhp (h : HazardRecord) : ℚ := (15/100) * planSubtotal h

/-- The `total` binding: `round(subtotal + contingency + ohp, 2)`. -/
def planTotal (h : HazardRecord) : ℚ :=
  round2 (planSubtotal h + planContingency h + planOhp h)

/-- The `step_time` binding: `round(max(0.15, base_hours / max(1, len(steps))), 2)`. -/
def planStepTime (h : HazardRecord) : ℚ :=
  round2 (max (15/100) (planHours h / (max 1 (get_profile h.hazard_type).steps.length : ℕ)))

/-- The `assumptions` block of the returned plan. -/
structure PlanAssumptions where
  hazard_type : String
  severity : Int
  scaling : ℚ
deriving DecidableEq, Repr

/-- The `costs` block of the returned plan (each entry rounded at output). -/
structure PlanCosts where
  material : ℚ
  labor : ℚ
  equipment : ℚ
  traffic_control : ℚ
  mobilization : ℚ
  contingency_12pct : ℚ
  overhead_profit_15pct : ℚ
  total_estimate : ℚ
deriving DecidableEq, Repr

/-- One entry of the `plan_steps` list. -/
structure PlanStep where
  step : Nat
  name : String
  duration_hr : ℚ
deriving DecidableEq, Repr

/-- The `schedule` block of the returned plan. -/
structure PlanSchedule where
  on_site_hours : ℚ
  lane_closure_hours : ℚ
  target_completion : String
deriving DecidableEq, Repr

/-- The `context` block of the returned plan (informational passthrough). -/
structure PlanContext where
  id : String
  location : Option String
  status : Option String
  description_excerpt : String
  images_count : Nat
deriving DecidableEq, Repr

/-- The full dictionary returned by `_build_plan_for`. -/
structure RepairPlan where
  assumptions : PlanAssumptions
  costs : PlanCosts
  crew : List Crew
  tools_materials : List String
  plan_steps : List PlanStep
  schedule : PlanSchedule
  context : PlanContext
  notes : String
deriving DecidableEq, Repr

/-- Source `_build_plan_for`, assembled from the factored bindings above.
The `assumptions.hazard_type` echo lowercases without stripping, exactly as
`(h.get("hazard_type") or "").lower()` does. -/
def build_plan_for (h : HazardRecord) : RepairPlan :=
  let prof := get_profile h.hazard_type
  { assumptions :=
      { hazard_type := lowerStr (h.hazard_type.getD "")
        severity := sevOrDefault h.severity
        scaling := round2 (planScale h) }
    costs :=
      { material := round2 (planMaterialCost h)
        labor := round2 (planLaborCost h)
        equipment := round2 (planEquipmentCost h)
        traffic_control := round2 (planTrafficCost h)
        mobilization := 120
        contingency_12pct := round2 (planContingency h)
        overhead_profit_15pct := round2 (planOhp h)
        total_estimate := planTotal h }
    crew := prof.crew
    tools_materials := prof.materials
    plan_steps := prof.steps.enum.map (fun p => ⟨p.1 + 1, p.2, planStepTime h⟩)
    schedule :=
      { on_site_hours := round2 (planHours h + 3/10)
        lane_closure_hours := round2 (max (3/4) ((3/5) * planHours h))
        target_completion := "same-day" }
    context :=
      { id := h.id
        location := h.location
        status := h.status
        description_excerpt := (h.description.getD "").take 140
        images_count := (h.images.getD []).length }
    notes := "Type-aware, severity-scaled estimate using only fields present in your table." }

/-- The store lookup `sb.table("hazards").select("*").eq("id", hazard_id).limit(1)`:
first record whose `id` equals the requested one. -/
def findHazard (store : List HazardRecord) (hid : String) : Option HazardRecord :=
  store.find? (fun h => h.id == hid)

/-- Result of the `estimate_repair_plan` tool: the raw record plus the plan. -/
structure EstimateResult where
  hazard : HazardRecord
  repair_plan : RepairPlan
deriving DecidableEq, Repr

/-- Source `estimate_repair_plan`: fetch by id, raise
`ValueError(f"Hazard \x7bhazard_id\x7d not found")` when no record matches,
otherwise build the plan. -/
def estimate_repair_plan (store : List HazardRecord) (hazard_id : String) :
    Except String EstimateResult :=
  match findHazard store hazard_id with
  | none => .error ("Hazard " ++ hazard_id ++ " not found")
  | some h => .ok ⟨h, build_plan_for h⟩

/-- The `TYPE_WORSENING` dictionary: per-type weekly worsening multiplier. -/
def TYPE_WORSENING : List (String × ℚ) :=
  [("pothole", 7/5), ("flooding", 5/4), ("debris", 17/20), ("damaged_signage", 3/4)]

/-- The `mult` binding of `_progression_per_week`:
`TYPE_WORSENING.get((hazard_type or "").lower(), 1.1)`. Note that, unlike
`_get_profile`, this lookup lowercases but does not strip whitespace. -/
def progressionMult (hazard_type : Option String) : ℚ :=
  (TYPE_WORSENING.lookup (lowerStr (hazard_type.getD ""))).getD (11/10)

/-- Source `_progression_per_week`:
`min(0.25, 0.02 * max(0, min(10, severity)) * mult)`. -/
def progression_per_week (severity : Int) (hazard_type : Option String) : ℚ :=
  min (1/4) ((2/100) * ((max 0 (min 10 severity) : Int) : ℚ) * progressionMult hazard_type)

/-- Source `_weather_multiplier`:
`1.0 + min(0.5, precip_mm / 200.0) + min(0.4, 0.05 * freeze_thaw_cycles)`. -/
def weather_multiplier (precip_mm : ℚ) (freeze_thaw_cycles : Int) : ℚ :=
  1 + min (1/2) (precip_mm / 200) + min (2/5) ((1/20) * (freeze_thaw_cycles : ℚ))

/-- The `weeks` binding of `project_worsening`: `max(0.0, horizon_days / 7.0)`. -/
def weeksOf (horizon_days : Int) : ℚ := max 0 ((horizon_days : ℚ) / 7)

/-- The per-record `sev_proj` computation shared by both modes of
`project_worsening`: `min(10.0, sev0 * (1.0 + p * weeks) * weather_mult)`
with `sev0 = int(h.get("severity") or 3)` and `p` from the progression model. -/
def recordProjection (weeks weather_mult : ℚ) (h : HazardRecord) : ℚ :=
  min 10 ((sevOrDefault h.severity : ℚ) *
    (1 + progression_per_week (sevOrDefault h.severity) h.hazard_type * weeks) * weather_mult)

/-- The single-hazard result of `project_worsening` (the wall-clock derived
`age_days` field, which depends on `datetime.now`, is outside this embedding;
no property below concerns it). -/
structure HazardProjection where
  severity_now : Int
  progression_per_week : ℚ
  weather_multiplier : ℚ
  projected_severity : ℚ
  recommended_action_window_days : Nat
deriving DecidableEq, Repr

/-- Single-hazard mode of `project_worsening`: fetch by id, raise the not-found
error when absent, otherwise project. The recommended window compares the
unrounded projection with 7, as the source does. -/
def project_worsening_hazard (store : List HazardRecord) (hazard_id : String)
    (horizon_days : Int) (precip_mm : ℚ) (freeze_thaw_cycles : Int) :
    Except String HazardProjection :=
  match findHazard store hazard_id with
  | none => .error ("Hazard " ++ hazard_id ++ " not found")
  | some h =>
    .ok { severity_now := sevOrDefault h.severity
          progression_per_week :=
            round4 (progression_per_week (sevOrDefault h.severity) h.hazard_type)
          weather_multiplier := round3 (weather_multiplier precip_mm freeze_thaw_cycles)
          projected_severity :=
            round2 (recordProjection (weeksOf horizon_days)
              (weather_multiplier precip_mm freeze_thaw_cycles) h)
          recommended_action_window_days :=
            if recordProjection (weeksOf horizon_days)
                (weather_multiplier precip_mm freeze_thaw_cycles) h ≥ 7
            then 14 else 30 }

/-- Extract the projected severity of a single-hazard projection result
(0 for the error case); used to state bounds uniformly. -/
def projectedOf (e : Except String HazardProjection) : ℚ :=
  match e with
  | .ok r => r.projected_severity
  | .error _ => 0

/-- One entry of the `samples` list of area mode. -/
structure AreaSample where
  id : String
  hazard_type : Option String
  severity_now : Int
  severity_projected : ℚ
deriving DecidableEq, Repr

/-- The area-mode summary of `project_worsening`. -/
structure AreaSummary where
  hazard_count : Nat
  avg_severity_now : ℚ
  avg_severity_projected : ℚ
  urgent_count : Nat
  samples : List AreaSample
deriving DecidableEq, Repr

/-- The row fetch of area mode:
`sb.table("hazards").select("*").eq("location", location).limit(5000)`. -/
def areaRows (store : List HazardRecord) (location : String) : List HazardRecord :=
  (store.filter (fun h => h.location == some location)).take 5000

/-- Area mode of `project_worsening`: return `none` for the
"no hazards found" shape, otherwise aggregate. The source's single loop
(sums over all rows, urgent count over all rows, samples from the first 50
rows) is expressed with `map`/`filter`/`take`, which compute the same values. -/
def project_worsening_area (store : List HazardRecord) (location : String)
    (horizon_days : Int) (precip_mm : ℚ) (freeze_thaw_cycles : Int) :
    Option AreaSummary :=
  if (areaRows store location).isEmpty then none
  else
    some { hazard_count := (areaRows store location).length
           avg_severity_now :=
             round2 (((areaRows store location).map
                 (fun h => ((sevOrDefault h.severity : Int) : ℚ))).sum /
               ((max 1 (areaRows store location).length : ℕ) : ℚ))
           avg_severity_projected :=
             round2 (((areaRows store location).map
                 (recordProjection (weeksOf horizon_days)
                   (weather_multiplier precip_mm freeze_thaw_cycles))).sum /
               ((max 1 (areaRows store location).length : ℕ) : ℚ))
           urgent_count :=
             ((areaRows store location).filter
               (fun h => recordProjection (weeksOf horizon_days)
                 (weather_multiplier precip_mm freeze_thaw_cycles) h ≥ 7)).length
           samples := ((areaRows store location).take 50).map (fun h =>
             { id := h.id
               hazard_type := h.hazard_type
               severity_now := sevOrDefault h.severity
               severity_projected :=
                 round2 (recordProjection (weeksOf horizon_days)
                   (weather_multiplier precip_mm freeze_thaw_cycles) h) }) }

/-! Analytics: the `area_with_most_hazards` branch of `query_hazards` issues
`select("location, count:id").group("location").order("count", desc=True).limit(1)`
against the store. The store collaborator's grouping is modelled client-side:
count per distinct location (first-appearance order), sort by count descending
(stable), truncate. -/

/-- Add one occurrence of a location key to a running count list. -/
def bumpKey : List (Option String × Nat) → Option String → List (Option String × Nat)
  | [], k => [(k, 1)]
  | (k', n) :: rest, k =>
      if k' = k then (k', n + 1) :: rest else (k', n) :: bumpKey rest k

/-- Group the store by `location` and count records per group. -/
def groupCounts (store : List HazardRecord) : List (Option String × Nat) :=
  store.foldl (fun acc h => bumpKey acc h.location) []

/-- The count-descending order used by `.order("count", desc=True)`. -/
def countGE (a b : Option String × Nat) : Prop := b.2 ≤ a.2

instance : DecidableRel countGE := fun a b => inferInstanceAs (Decidable (b.2 ≤ a.2))

instance : IsTotal (Option String × Nat) countGE := ⟨fun a b => le_total b.2 a.2⟩

instance : IsTrans (Option String × Nat) countGE := ⟨fun _ _ _ h1 h2 => le_trans h2 h1⟩

/-- Sort group counts by count descending (insertion sort; the store's
tie-breaking between equal counts is unspecified and no property below
depends on it). -/
def sortByCountDesc (l : List (Option String × Nat)) : List (Option String × Nat) :=
  List.insertionSort countGE l

/-- The `area_with_most_hazards` branch of `query_hazards` as the source writes
it: the `location` and `limit` tool arguments are received but the issued store
query groups all records and truncates to a hard-coded single row. -/
def query_area_with_most_hazards (store : List HazardRecord)
    (location : Option String) (lim : Nat) : List (Option String × Nat) :=
  (sortByCountDesc (groupCounts store)).take 1

/-- Contiguous-substring test on character lists (second argument is the
needle), the semantics of Python `needle in hay`. -/
def containsChars : List Char → List Char → Bool
  | hay, needle =>
    needle.isPrefixOf hay ||
      match hay with
      | [] => false
      | _ :: t => containsChars t needle

/-- Modelled from the spec for comparison: group records whose location passes
a case-insensitive substring filter (when a `location` argument is given),
count, sort by count descending, return the top `limit` groups. -/
def query_area_with_most_hazards_spec (store : List HazardRecord)
    (location : Option String) (lim : Nat) : List (Option String × Nat) :=
  let keep : HazardRecord → Bool := fun h =>
    match location with
    | none => true
    | some q => containsChars (lowerStr (h.location.getD "")).data (lowerStr q).data
  (sortByCountDesc (groupCounts (store.filter keep))).take lim

/-! Concrete records used by the end-to-end claims and by witnesses. -/

/-- A pothole record of severity 8 (end-to-end example 1). -/
def recPothole8 : HazardRecord :=
  ⟨"p8", some "pothole", some 8, some "Main St", some "open", none, none, none⟩

/-- A debris record of severity 0 (end-to-end example 2). -/
def recDebris0 : HazardRecord :=
  ⟨"d0", some "debris", some 0, some "Oak Ave", some "open", none, none, none⟩

/-- A pothole record of severity 5. -/
def recPothole5 : HazardRecord :=
  ⟨"p5", some "pothole", some 5, some "Main St", some "open", none, none, none⟩

/-- A record with NULL severity (defaults to 3). -/
def recNoSev : HazardRecord :=
  ⟨"n3", some "flooding", none, some "Main St", some "open", none, none, none⟩

/-- A small demo store. -/
def demoStore : List HazardRecord := [recPothole8, recDebris0, recPothole5, recNoSev]

/-- Store for the analytics counterexample: two records in "Alpha", one in "Beta". -/
def areaStore : List HazardRecord :=
  [⟨"a1", some "pothole", some 4, some "Alpha", some "open", none, none, none⟩,
   ⟨"a2", some "debris", some 2, some "Alpha", some "open", none, none, none⟩,
   ⟨"b1", some "pothole", some 6, some "Beta", some "open", none, none, none⟩]

/-! Evaluation lemmas (by definitional reduction) for the string-keyed lookups
at the concrete records: they let the arithmetic proofs avoid unfolding the
character-level string functions. -/

lemma profileEval_p8 : get_profile recPothole8.hazard_type = potholeProfile := rfl

lemma profileEval_p5 : get_profile recPothole5.hazard_type = potholeProfile := rfl

lemma profileEval_d0 : get_profile recDebris0.hazard_type = debrisProfile := rfl

lemma sevEval_p8 : sevOrDefault recPothole8.severity = 8 := rfl

lemma sevEval_p5 : sevOrDefault recPothole5.severity = 5 := rfl

lemma sevEval_d0 : sevOrDefault recDebris0.severity = 3 := rfl

lemma multEval_debris : progressionMult (some "debris") = 17/20 := rfl

lemma multEval_pothole : progressionMult (some "pothole") = 7/5 := rfl

section SanityChecks

example : planScale recPothole8 = 13/5 := by
  norm_num [planScale, severity_scale, sevEval_p8]

example : planScale recDebris0 = 27/20 := by
  norm_num [planScale, severity_scale, sevEval_d0]

example : planMaterialCost recPothole8 = 1968/5 := by
  norm_num [planMaterialCost, planScale, severity_scale, sevEval_p8, profileEval_p8,
    potholeProfile]

example : planSubtotal recPothole8 = 9179/10 := by
  norm_num [planSubtotal, planMaterialCost, planLaborCost, planEquipmentCost,
    planTrafficCost, planHours, planScale, severity_scale, sevEval_p8, profileEval_p8,
    potholeProfile]

example : progression_per_week 3 (some "debris") = 51/1000 := by
  norm_num [progression_per_week, multEval_debris]

example :
    projectedOf (project_worsening_hazard [recDebris0] "d0" 0 0 0) = 3 := by
  norm_num [project_worsening_hazard, findHazard, projectedOf, recDebris0,
    recordProjection, sevOrDefault, weather_multiplier, weeksOf, round2]

end SanityChecks

/-! General helper lemmas. -/

lemma round2_mono {q r : ℚ} (h : q ≤ r) : round2 q ≤ round2 r := by
  have hf : (⌊q * 100 + 1/2⌋ : ℤ) ≤ ⌊r * 100 + 1/2⌋ := Int.floor_mono (by linarith)
  have hc : ((⌊q * 100 + 1/2⌋ : ℤ) : ℚ) ≤ ((⌊r * 100 + 1/2⌋ : ℤ) : ℚ) := by exact_mod_cast hf
  unfold round2
  gcongr

lemma round2_nonneg {q : ℚ} (h : 0 ≤ q) : 0 ≤ round2 q := by
  have h0 : round2 0 = 0 := by norm_num [round2]
  have := round2_mono h
  linarith

lemma round2_le_ten {q : ℚ} (h : q ≤ 10) : round2 q ≤ 10 := by
  have h10 : round2 10 = 10 := by norm_num [round2]
  have := round2_mono h
  linarith

lemma sevOrDefault_nonneg {o : Option Int} (h : 0 ≤ o.getD 0) : 0 ≤ sevOrDefault o := by
  cases o with
  | none => norm_num [sevOrDefault]
  | some s =>
      simp only [Option.getD] at h
      by_cases hs : s = 0 <;> simp [sevOrDefault, hs] <;> omega

lemma progressionMult_cases (t : Option String) :
    progressionMult t = 7/5 ∨ progressionMult t = 5/4 ∨ progressionMult t = 17/20 ∨
      progressionMult t = 3/4 ∨ progressionMult t = 11/10 := by
  unfold progressionMult TYPE_WORSENING
  cases h1 : lowerStr (t.getD "") == "pothole" <;>
    cases h2 : lowerStr (t.getD "") == "flooding" <;>
      cases h3 : lowerStr (t.getD "") == "debris" <;>
        cases h4 : lowerStr (t.getD "") == "damaged_signage" <;>
          simp [List.lookup, h1, h2, h3, h4]

lemma progressionMult_pos (t : Option String) : 0 < progressionMult t := by
  rcases progressionMult_cases t with h | h | h | h | h <;> rw [h] <;> norm_num

lemma progression_per_week_nonneg (s : Int) (t : Option String) :
    0 ≤ progression_per_week s t := by
  unfold progression_per_week
  have hb : (0 : ℚ) ≤ (2/100) * ((max 0 (min 10 s) : Int) : ℚ) := by
    have : (0 : Int) ≤ max 0 (min 10 s) := le_max_left 0 _
    have hc : (0 : ℚ) ≤ ((max 0 (min 10 s) : Int) : ℚ) := by exact_mod_cast this
    linarith
  exact le_min (by norm_num) (mul_nonneg hb (progressionMult_pos t).le)

lemma progression_per_week_le (s : Int) (t : Option String) :
    progression_per_week s t ≤ 1/4 := min_le_left _ _

lemma weather_multiplier_ge_one {p : ℚ} {f : Int} (hp : 0 ≤ p) (hf : 0 ≤ f) :
    1 ≤ weather_multiplier p f := by
  unfold weather_multiplier
  have h1 : (0 : ℚ) ≤ min (1/2) (p/200) := le_min (by norm_num) (by positivity)
  have hfq : (0 : ℚ) ≤ (f : ℚ) := by exact_mod_cast hf
  have h2 : (0 : ℚ) ≤ min (2/5) ((1/20) * (f : ℚ)) := le_min (by norm_num) (by positivity)
  linarith

lemma weather_multiplier_le {p : ℚ} {f : Int} : weather_multiplier p f ≤ 19/10 := by
  unfold weather_multiplier
  have h1 : min (1/2 : ℚ) (p/200) ≤ 1/2 := min_le_left _ _
  have h2 : min (2/5 : ℚ) ((1/20) * (f : ℚ)) ≤ 2/5 := min_le_left _ _
  linarith

lemma weeksOf_nonneg (d : Int) : 0 ≤ weeksOf d := le_max_left 0 _

lemma weeksOf_mono {d1 d2 : Int} (h : d1 ≤ d2) : weeksOf d1 ≤ weeksOf d2 := by
  unfold weeksOf
  have hc : ((d1 : ℚ)) ≤ (d2 : ℚ) := by exact_mod_cast h
  have : (d1 : ℚ) / 7 ≤ (d2 : ℚ) / 7 := by gcongr
  exact max_le_max le_rfl this

lemma recordProjection_le_ten (weeks wm : ℚ) (h : HazardRecord) :
    recordProjection weeks wm h ≤ 10 := min_le_left _ _

lemma recordProjection_nonneg {weeks wm : ℚ} (h : HazardRecord)
    (hw : 0 ≤ weeks) (hm : 0 ≤ wm) (hs : 0 ≤ sevOrDefault h.severity) :
    0 ≤ recordProjection weeks wm h := by
  unfold recordProjection
  have hsq : (0 : ℚ) ≤ (sevOrDefault h.severity : ℚ) := by exact_mod_cast hs
  have hp := progression_per_week_nonneg (sevOrDefault h.severity) h.hazard_type
  have hone : (0 : ℚ) ≤ 1 + progression_per_week (sevOrDefault h.severity) h.hazard_type * weeks := by
    nlinarith
  exact le_min (by norm_num) (mul_nonneg (mul_nonneg hsq hone) hm)

lemma recordProjection_mono_weeks {w1 w2 wm : ℚ} (h : HazardRecord)
    (hw : w1 ≤ w2) (hm : 0 ≤ wm) (hs : 0 ≤ sevOrDefault h.severity) :
    recordProjection w1 wm h ≤ recordProjection w2 wm h := by
  unfold recordProjection
  have hsq : (0 : ℚ) ≤ (sevOrDefault h.severity : ℚ) := by exact_mod_cast hs
  have hp := progression_per_week_nonneg (sevOrDefault h.severity) h.hazard_type
  refine min_le_min le_rfl ?_
  have h1 : 1 + progression_per_week (sevOrDefault h.severity) h.hazard_type * w1 ≤
      1 + progression_per_week (sevOrDefault h.severity) h.hazard_type * w2 := by nlinarith
  have h2 := mul_le_mul_of_nonneg_left h1 hsq
  exact mul_le_mul_of_nonneg_right h2 hm

/-! The claims. -/

/-- C7: for every integer severity `s`, the severity scaler equals the
double-clamp formula `clamp(0.6 + 0.25 * clamp(s, 0, 10), 0.6, 3.0)`, its
value lies in `[0.6, 3.0]`, and it is monotone non-decreasing; every integer
input is accepted (the scaler is a total function). -/
theorem claim_C7 (s t : Int) (hst : s ≤ t) :
    severity_scale s =
      max (3/5 : ℚ) (min 3 (3/5 + (1/4) * ((max 0 (min 10 s) : Int) : ℚ)))
    ∧ 3/5 ≤ severity_scale s ∧ severity_scale s ≤ 3
    ∧ severity_scale s ≤ severity_scale t := by
  refine ⟨rfl, le_max_left _ _, max_le (by norm_num) (min_le_left _ _), ?_⟩
  have h1 : max 0 (min 10 s) ≤ max 0 (min 10 t) :=
    max_le_max le_rfl (min_le_min le_rfl hst)
  have hc : ((max 0 (min 10 s) : Int) : ℚ) ≤ ((max 0 (min 10 t) : Int) : ℚ) := by
    exact_mod_cast h1
  have h2 : (3/5 : ℚ) + (1/4) * ((max 0 (min 10 s) : Int) : ℚ) ≤
      3/5 + (1/4) * ((max 0 (min 10 t) : Int) : ℚ) := by linarith
  exact max_le_max le_rfl (min_le_min le_rfl h2)

/-- Witness for C7 at severities 2 and 5. -/
theorem witness_C7 :
    severity_scale 2 =
      max (3/5 : ℚ) (min 3 (3/5 + (1/4) * ((max 0 (min 10 2) : Int) : ℚ)))
    ∧ 3/5 ≤ severity_scale 2 ∧ severity_scale 2 ≤ 3
    ∧ severity_scale 2 ≤ severity_scale 5 :=
  claim_C7 2 5 (by norm_num)

/-- C4 as stated is false: the interval bound `[1.0, 1.9]` fails for negative
weather inputs. At `precip_mm = -400`, `freeze_thaw_cycles = 0` the multiplier
is `1 + min(0.5, -2) + min(0.4, 0) = -1 < 1`. -/
theorem counterexample_C4 :
    weather_multiplier (-400) 0 = -1 ∧ ¬ (1 ≤ weather_multiplier (-400) 0) := by
  constructor <;> norm_num [weather_multiplier, min_def]

/-- C4 amended: the weather multiplier equals the stated formula for all
inputs, and for non-negative `precip_mm` and `freeze_thaw_cycles` it lies in
`[1.0, 1.9]`. -/
theorem claim_C4 (p : ℚ) (f : Int) (hp : 0 ≤ p) (hf : 0 ≤ f) :
    weather_multiplier p f = 1 + min (1/2) (p/200) + min (2/5) ((1/20) * (f : ℚ))
    ∧ 1 ≤ weather_multiplier p f ∧ weather_multiplier p f ≤ 19/10 :=
  ⟨rfl, weather_multiplier_ge_one hp hf, weather_multiplier_le⟩

/-- Witness for C4 at `precip_mm = 100`, `freeze_thaw_cycles = 2`. -/
theorem witness_C4 :
    weather_multiplier 100 2 =
      1 + min (1/2) ((100 : ℚ)/200) + min (2/5) ((1/20) * ((2 : Int) : ℚ))
    ∧ 1 ≤ weather_multiplier 100 2 ∧ weather_multiplier 100 2 ≤ 19/10 :=
  claim_C4 100 2 (by norm_num) (by norm_num)

/-- C6: the end-to-end repair-plan numbers for a pothole record of severity 8:
scale 2.6, hours 2.6, material 393.6, labor 234.0, equipment 84.5,
traffic 85.8, subtotal 917.9, contingency `0.12 * subtotal`, overhead-profit
`0.15 * subtotal`, and the output total `round(subtotal * 1.27, 2) = 1165.73`. -/
theorem claim_C6 :
    planScale recPothole8 = 13/5
    ∧ planHours recPothole8 = 13/5
    ∧ planMaterialCost recPothole8 = 1968/5
    ∧ planLaborCost recPothole8 = 234
    ∧ planEquipmentCost recPothole8 = 169/2
    ∧ planTrafficCost recPothole8 = 429/5
    ∧ planSubtotal recPothole8 = 9179/10
    ∧ planContingency recPothole8 = (12/100) * (9179/10)
    ∧ planOhp recPothole8 = (15/100) * (9179/10)
    ∧ planTotal recPothole8 = round2 ((9179/10) * (127/100))
    ∧ (build_plan_for recPothole8).costs.total_estimate = 116573/100 := by
  have hscale : planScale recPothole8 = 13/5 := by
    norm_num [planScale, severity_scale, sevEval_p8]
  have hhours : planHours recPothole8 = 13/5 := by
    norm_num [planHours, profileEval_p8, potholeProfile, hscale]
  have hmat : planMaterialCost recPothole8 = 1968/5 := by
    norm_num [planMaterialCost, profileEval_p8, potholeProfile, hscale]
  have hlab : planLaborCost recPothole8 = 234 := by
    norm_num [planLaborCost, profileEval_p8, potholeProfile, hhours]
  have heq : planEquipmentCost recPothole8 = 169/2 := by
    norm_num [planEquipmentCost, profileEval_p8, potholeProfile, hhours, max_def]
  have htr : planTrafficCost recPothole8 = 429/5 := by
    norm_num [planTrafficCost, profileEval_p8, potholeProfile, hhours, max_def]
  have hsub : planSubtotal recPothole8 = 9179/10 := by
    norm_num [planSubtotal, hmat, hlab, heq, htr]
  have hcont : planContingency recPothole8 = (12/100) * (9179/10) := by
    rw [planContingency, hsub]
  have hohp : planOhp recPothole8 = (15/100) * (9179/10) := by
    rw [planOhp, hsub]
  have htot : planTotal recPothole8 = round2 ((9179/10) * (127/100)) := by
    rw [planTotal, hsub, hcont, hohp]; norm_num
  have htotv : planTotal recPothole8 = 116573/100 := by
    rw [htot]; norm_num [round2]
  exact ⟨hscale, hhours, hmat, hlab, heq, htr, hsub, hcont, hohp, htot, htotv⟩

/-- C5: `estimate_repair_plan` succeeds exactly when some stored record has the
requested id, and in the failure case it returns the not-found error message
naming that id. Records are typed per the data model, so the plan builder is
total on every stored record; the missing id is the only failure path. -/
theorem claim_C5 (store : List HazardRecord) (hid : String) :
    ((estimate_repair_plan store hid).isOk = true ↔ ∃ h ∈ store, h.id = hid)
    ∧ ((¬ ∃ h ∈ store, h.id = hid) →
        estimate_repair_plan store hid = .error ("Hazard " ++ hid ++ " not found")) := by
  have hiff : (findHazard store hid).isSome = true ↔ ∃ h ∈ store, h.id = hid := by
    unfold findHazard
    rw [List.find?_isSome]
    simp
  rcases hf : findHazard store hid with _ | h
  · rw [hf] at hiff
    simp only [Option.isSome_none, Bool.false_eq_true, false_iff] at hiff
    refine ⟨?_, fun _ => ?_⟩
    · simp [estimate_repair_plan, hf, Except.isOk, Except.toBool, hiff]
    · simp [estimate_repair_plan, hf]
  · rw [hf] at hiff
    simp only [Option.isSome_some, true_iff] at hiff
    refine ⟨?_, fun hno => absurd hiff hno⟩
    simp [estimate_repair_plan, hf, Except.isOk, Except.toBool, hiff]

/-- Witness for C5: in the demo store, the unknown id "nope" fails with the
message naming it, and the present id "p8" succeeds. -/
theorem witness_C5 :
    estimate_repair_plan demoStore "nope" = .error ("Hazard nope not found")
    ∧ (estimate_repair_plan demoStore "p8").isOk = true := by
  have h1 := (claim_C5 demoStore "nope").2 (by decide)
  have h2 := (claim_C5 demoStore "p8").1.mpr ⟨recPothole8, by decide, rfl⟩
  exact ⟨h1, h2⟩

/-- C9: two records agreeing on `hazard_type` and `severity` get identical
derived plan output (assumptions, costs, crew, tools and materials, plan
steps, schedule); the builder is a pure function, hence deterministic, and the
derived part reads no other record field. -/
theorem claim_C9 (h1 h2 : HazardRecord) (ht : h1.hazard_type = h2.hazard_type)
    (hs : h1.severity = h2.severity) :
    (build_plan_for h1).assumptions = (build_plan_for h2).assumptions
    ∧ (build_plan_for h1).costs = (build_plan_for h2).costs
    ∧ (build_plan_for h1).crew = (build_plan_for h2).crew
    ∧ (build_plan_for h1).tools_materials = (build_plan_for h2).tools_materials
    ∧ (build_plan_for h1).plan_steps = (build_plan_for h2).plan_steps
    ∧ (build_plan_for h1).schedule = (build_plan_for h2).schedule := by
  simp only [build_plan_for, planScale, planHours, planMaterialCost, planLaborCost,
    planEquipmentCost, planTrafficCost, planSubtotal, planContingency, planOhp,
    planTotal, planStepTime, ht, hs, and_self]

/-- A record with the same hazard type and severity as `recPothole8` but a
different id, location and description. -/
def recPothole8b : HazardRecord :=
  ⟨"z9", some "pothole", some 8, some "Pine Rd", some "resolved",
   some "large pothole near the crosswalk", some ["img1.jpg"], some "2024-01-01T00:00:00Z"⟩

/-- Witness for C9 at two records differing in every non-input field. -/
theorem witness_C9 :
    (build_plan_for recPothole8).assumptions = (build_plan_for recPothole8b).assumptions
    ∧ (build_plan_for recPothole8).costs = (build_plan_for recPothole8b).costs
    ∧ (build_plan_for recPothole8).crew = (build_plan_for recPothole8b).crew
    ∧ (build_plan_for recPothole8).tools_materials = (build_plan_for recPothole8b).tools_materials
    ∧ (build_plan_for recPothole8).plan_steps = (build_plan_for recPothole8b).plan_steps
    ∧ (build_plan_for recPothole8).schedule = (build_plan_for recPothole8b).schedule :=
  claim_C9 recPothole8 recPothole8b rfl rfl

/-- C1 as stated is false: the source reads severity through
`int(h.get("severity") or 3)`, and a stored severity of 0 is falsy in Python,
so it is replaced by the absent-value default 3. For the debris record of
severity 0: scale is 1.35 (not 0.6), the weekly rate is 0.051 (not 0), and the
projection at horizon 0 under default weather is 3 (not 0). -/
theorem counterexample_C1 :
    planScale recDebris0 = 27/20 ∧ (27/20 : ℚ) ≠ 3/5
    ∧ progression_per_week (sevOrDefault recDebris0.severity) recDebris0.hazard_type = 51/1000
    ∧ (51/1000 : ℚ) ≠ 0
    ∧ projectedOf (project_worsening_hazard [recDebris0] "d0" 0 0 0) = 3
    ∧ (3 : ℚ) ≠ 0 := by
  refine ⟨?_, by norm_num, ?_, by norm_num, ?_, by norm_num⟩
  · norm_num [planScale, severity_scale, sevEval_d0]
  · show progression_per_week 3 (some "debris") = 51/1000
    norm_num [progression_per_week, multEval_debris]
  · norm_num [project_worsening_hazard, findHazard, projectedOf, recDebris0,
      recordProjection, sevOrDefault, weather_multiplier, weeksOf, round2]

/-- C1 amended: for the debris record whose stored severity is 0, the falsy
severity is replaced by the default 3, giving scale 1.35 and weekly rate
0.051; under default weather the projection at every non-negative horizon is
at least 3 (never 0) and at most 10. -/
theorem claim_C1 (d : Int) (hd : 0 ≤ d) :
    sevOrDefault (some 0) = 3
    ∧ planScale recDebris0 = 27/20
    ∧ progression_per_week (sevOrDefault recDebris0.severity) recDebris0.hazard_type = 51/1000
    ∧ 3 ≤ projectedOf (project_worsening_hazard [recDebris0] "d0" d 0 0)
    ∧ projectedOf (project_worsening_hazard [recDebris0] "d0" d 0 0) ≤ 10 := by
  have hfind : findHazard [recDebris0] "d0" = some recDebris0 := rfl
  have hproj : projectedOf (project_worsening_hazard [recDebris0] "d0" d 0 0) =
      round2 (recordProjection (weeksOf d) (weather_multiplier 0 0) recDebris0) := by
    simp [project_worsening_hazard, hfind, projectedOf]
  have hw1 : weather_multiplier 0 0 = 1 := by norm_num [weather_multiplier, min_def]
  have hlow : (3 : ℚ) ≤ recordProjection (weeksOf d) (weather_multiplier 0 0) recDebris0 := by
    rw [hw1]
    unfold recordProjection
    rw [sevEval_d0]
    have hp := progression_per_week_nonneg 3 recDebris0.hazard_type
    have hwk := weeksOf_nonneg d
    refine le_min (by norm_num) ?_
    push_cast
    nlinarith
  refine ⟨rfl, ?_, ?_, ?_, ?_⟩
  · norm_num [planScale, severity_scale, sevEval_d0]
  · show progression_per_week 3 (some "debris") = 51/1000
    norm_num [progression_per_week, multEval_debris]
  · rw [hproj]
    have h3 : round2 3 = 3 := by norm_num [round2]
    calc (3 : ℚ) = round2 3 := h3.symm
    _ ≤ _ := round2_mono hlow
  · rw [hproj]
    exact round2_le_ten (recordProjection_le_ten _ _ _)

/-- Witness for C1 amended at horizon 30. -/
theorem witness_C1 :
    sevOrDefault (some 0) = 3
    ∧ planScale recDebris0 = 27/20
    ∧ progression_per_week (sevOrDefault recDebris0.severity) recDebris0.hazard_type = 51/1000
    ∧ 3 ≤ projectedOf (project_worsening_hazard [recDebris0] "d0" 30 0 0)
    ∧ projectedOf (project_worsening_hazard [recDebris0] "d0" 30 0 0) ≤ 10 :=
  claim_C1 30 (by norm_num)

/-- C10: for a fixed record with absent-or-non-negative stored severity and
non-negative weather inputs, the projected severity returned by
`project_worsening` (single-hazard mode) is monotone non-decreasing in
`horizon_days`. -/
theorem claim_C10 (store : List HazardRecord) (hid : String) (h : HazardRecord)
    (hfind : findHazard store hid = some h)
    (hsev : 0 ≤ h.severity.getD 0)
    (precip : ℚ) (hp : 0 ≤ precip) (ftc : Int) (hf : 0 ≤ ftc)
    (d1 d2 : Int) (hd : d1 ≤ d2) :
    projectedOf (project_worsening_hazard store hid d1 precip ftc) ≤
      projectedOf (project_worsening_hazard store hid d2 precip ftc) := by
  have hproj : ∀ d : Int, projectedOf (project_worsening_hazard store hid d precip ftc) =
      round2 (recordProjection (weeksOf d) (weather_multiplier precip ftc) h) := by
    intro d
    simp [project_worsening_hazard, hfind, projectedOf]
  rw [hproj d1, hproj d2]
  have hm : (0 : ℚ) ≤ weather_multiplier precip ftc :=
    le_trans (by norm_num) (weather_multiplier_ge_one hp hf)
  exact round2_mono
    (recordProjection_mono_weeks h (weeksOf_mono hd) hm (sevOrDefault_nonneg hsev))

/-- Witness for C10: severity-5 pothole, horizons 7 and 14, wet weather. -/
theorem witness_C10 :
    projectedOf (project_worsening_hazard demoStore "p5" 7 10 1) ≤
      projectedOf (project_worsening_hazard demoStore "p5" 14 10 1) :=
  claim_C10 demoStore "p5" recPothole5 rfl (by decide) 10 (by norm_num) 1
    (by norm_num) 7 14 (by norm_num)

/-- C3 as stated is false: the lower bound `0 ≤ projected_severity` fails for
a negative `precip_mm` input. With the stored severity defaulting to 3,
horizon 0 and `precip_mm = -400`, the weather multiplier is `-1` and the
returned projection is `-3`. -/
theorem counterexample_C3 :
    projectedOf (project_worsening_hazard [recNoSev] "n3" 0 (-400) 0) = -3
    ∧ ¬ (0 ≤ projectedOf (project_worsening_hazard [recNoSev] "n3" 0 (-400) 0)) := by
  have hv : projectedOf (project_worsening_hazard [recNoSev] "n3" 0 (-400) 0) = -3 := by
    norm_num [project_worsening_hazard, findHazard, projectedOf, recNoSev,
      recordProjection, sevOrDefault, weather_multiplier, weeksOf, min_def, round2]
  rw [hv]
  norm_num

/-- C3 amended: the upper bound 10 holds for every store, id, horizon and
weather input, in single-hazard mode and for every per-record sample of area
mode; the lower bound 0 additionally holds whenever the record severities are
absent or non-negative and the weather inputs are non-negative. -/
theorem claim_C3 :
    (∀ (store : List HazardRecord) (hid : String) (d : Int) (p : ℚ) (f : Int),
      projectedOf (project_worsening_hazard store hid d p f) ≤ 10)
    ∧ (∀ (store : List HazardRecord) (hid : String) (d : Int) (p : ℚ) (f : Int)
        (h : HazardRecord), findHazard store hid = some h → 0 ≤ h.severity.getD 0 →
        0 ≤ p → 0 ≤ f →
        0 ≤ projectedOf (project_worsening_hazard store hid d p f))
    ∧ (∀ (store : List HazardRecord) (loc : String) (d : Int) (p : ℚ) (f : Int)
        (r : AreaSummary), project_worsening_area store loc d p f = some r →
        ∀ s ∈ r.samples, s.severity_projected ≤ 10)
    ∧ (∀ (store : List HazardRecord) (loc : String) (d : Int) (p : ℚ) (f : Int)
        (r : AreaSummary), (∀ h ∈ store, 0 ≤ h.severity.getD 0) → 0 ≤ p → 0 ≤ f →
        project_worsening_area store loc d p f = some r →
        ∀ s ∈ r.samples, 0 ≤ s.severity_projected) := by
  have hsamples : ∀ (store : List HazardRecord) (loc : String) (d : Int) (p : ℚ) (f : Int)
      (r : AreaSummary), project_worsening_area store loc d p f = some r →
      r.samples = ((areaRows store loc).take 50).map (fun h =>
        { id := h.id, hazard_type := h.hazard_type, severity_now := sevOrDefault h.severity
          severity_projected :=
            round2 (recordProjection (weeksOf d) (weather_multiplier p f) h) }) := by
    intro store loc d p f r hr
    unfold project_worsening_area at hr
    by_cases he : (areaRows store loc).isEmpty <;> simp [he] at hr
    rw [← hr]
    simp [List.map_take]
  refine ⟨?_, ?_, ?_, ?_⟩
  · intro store hid d p f
    rcases hf : findHazard store hid with _ | h
    · simp [project_worsening_hazard, hf, projectedOf]
    · simp only [project_worsening_hazard, hf, projectedOf]
      exact round2_le_ten (recordProjection_le_ten _ _ _)
  · intro store hid d p f h hfind hsev hp hfc
    simp only [project_worsening_hazard, hfind, projectedOf]
    refine round2_nonneg (recordProjection_nonneg h (weeksOf_nonneg d) ?_
      (sevOrDefault_nonneg hsev))
    exact le_trans (by norm_num) (weather_multiplier_ge_one hp hfc)
  · intro store loc d p f r hr s hs
    rw [hsamples store loc d p f r hr] at hs
    rcases List.mem_map.mp hs with ⟨h, _, hfh⟩
    rw [← hfh]
    exact round2_le_ten (recordProjection_le_ten _ _ _)
  · intro store loc d p f r hstore hp hfc hr s hs
    rw [hsamples store loc d p f r hr] at hs
    rcases List.mem_map.mp hs with ⟨h, hmem, hfh⟩
    have hmem2 : h ∈ store := by
      have h1 : h ∈ areaRows store loc := List.take_subset 50 _ hmem
      have h2 : h ∈ store.filter (fun x => x.location == some loc) :=
        List.take_subset 5000 _ h1
      exact List.mem_of_mem_filter h2
    rw [← hfh]
    refine round2_nonneg (recordProjection_nonneg h (weeksOf_nonneg d) ?_
      (sevOrDefault_nonneg (hstore h hmem2)))
    exact le_trans (by norm_num) (weather_multiplier_ge_one hp hfc)

/-- Witness for C3 amended: bounds at concrete single-hazard and area calls. -/
theorem witness_C3 :
    projectedOf (project_worsening_hazard demoStore "p8" 30 10 1) ≤ 10
    ∧ 0 ≤ projectedOf (project_worsening_hazard demoStore "p8" 30 10 1) := by
  constructor
  · exact claim_C3.1 demoStore "p8" 30 10 1
  · exact claim_C3.2.1 demoStore "p8" 30 10 1 recPothole8 rfl (by decide)
      (by norm_num) (by norm_num)

/-- C8 as stated is false: the string " debris " (surrounding spaces) is not a
known tag after case-insensitive normalization (lowercasing leaves the
spaces), yet profile lookup resolves it to the debris profile — not the
pothole default — because `_get_profile` additionally strips whitespace while
the progression lookup does not (that one does fall back, to 1.10). -/
theorem counterexample_C8 :
    lowerStr " debris " ∉ (["pothole", "flooding", "debris", "damaged_signage"] : List String)
    ∧ get_profile (some " debris ") = debrisProfile
    ∧ debrisProfile ≠ potholeProfile
    ∧ progressionMult (some " debris ") = 11/10 := by
  refine ⟨by decide, rfl, ?_, rfl⟩
  intro h
  exact absurd (congrArg HazardProfile.materials h) (by decide)

/-- C8 amended: profile lookup normalizes by stripping whitespace and
lowercasing while progression lookup only lowercases; a hazard type unknown
under the respective lookup's own normalization falls back to the pothole
profile (plan-building) and to multiplier 1.10 (progression), each
independently; both lookups are invariant under their normalization, so known
tags match case-insensitively. -/
theorem claim_C8 :
    (∀ t : Option String,
      HAZARD_PROFILES.lookup (lowerStr (stripStr (t.getD ""))) = none →
      get_profile t = potholeProfile)
    ∧ (∀ t : Option String,
      TYPE_WORSENING.lookup (lowerStr (t.getD "")) = none →
      progressionMult t = 11/10)
    ∧ (∀ s1 s2 : String, lowerStr (stripStr s1) = lowerStr (stripStr s2) →
      get_profile (some s1) = get_profile (some s2))
    ∧ (∀ s1 s2 : String, lowerStr s1 = lowerStr s2 →
      progressionMult (some s1) = progressionMult (some s2))
    ∧ get_profile (some "DEBRIS") = debrisProfile
    ∧ progressionMult (some "Pothole") = 7/5 := by
  refine ⟨?_, ?_, ?_, ?_, rfl, rfl⟩
  · intro t ht
    unfold get_profile
    rw [ht]
    rfl
  · intro t ht
    unfold progressionMult
    rw [ht]
    rfl
  · intro s1 s2 hs
    simp only [get_profile, Option.getD_some]
    rw [hs]
  · intro s1 s2 hs
    simp only [progressionMult, Option.getD_some]
    rw [hs]

/-- Witness for C8 at the unknown tag "sinkhole" and a case variant of
"debris". -/
theorem witness_C8 :
    get_profile (some "sinkhole") = potholeProfile
    ∧ progressionMult (some "sinkhole") = 11/10
    ∧ get_profile (some "Debris") = get_profile (some "debris") :=
  ⟨claim_C8.1 (some "sinkhole") rfl, claim_C8.2.1 (some "sinkhole") rfl,
   claim_C8.2.2.1 "Debris" "debris" rfl⟩

/-- C2 as stated is false: with two "Alpha" records and one "Beta" record, a
`location` filter of "beta" and `limit = 2`, the code returns the single group
("Alpha", 2) — the hard-coded `limit(1)` top group over all records — while
the claimed semantics (substring filter plus top-`limit`) yields
[("Beta", 1)]. -/
theorem counterexample_C2 :
    query_area_with_most_hazards areaStore (some "beta") 2 = [(some "Alpha", 2)]
    ∧ query_area_with_most_hazards_spec areaStore (some "beta") 2 = [(some "Beta", 1)]
    ∧ ([(some "Alpha", 2)] : List (Option String × Nat)) ≠ [(some "Beta", 1)] := by
  exact ⟨rfl, rfl, by decide⟩

/-- C2 amended: the `area_with_most_hazards` branch ignores both the
`location` and `limit` arguments, returns at most one group, and any returned
group's count is maximal among all location groups of the store. -/
theorem claim_C2 (store : List HazardRecord) (loc loc' : Option String) (lim lim' : Nat) :
    query_area_with_most_hazards store loc lim = query_area_with_most_hazards store loc' lim'
    ∧ (query_area_with_most_hazards store loc lim).length ≤ 1
    ∧ (∀ e ∈ query_area_with_most_hazards store loc lim,
        ∀ g ∈ groupCounts store, g.2 ≤ e.2) := by
  refine ⟨rfl, ?_, ?_⟩
  · unfold query_area_with_most_hazards
    rw [List.length_take]
    exact min_le_left _ _
  · intro e he g hg
    unfold query_area_with_most_hazards sortByCountDesc at he
    have hsorted := List.sorted_insertionSort countGE (groupCounts store)
    have hperm := List.perm_insertionSort countGE (groupCounts store)
    rcases hL : List.insertionSort countGE (groupCounts store) with _ | ⟨a, t⟩
    · rw [hL] at he
      simp at he
    · rw [hL] at he
      simp only [List.take_succ_cons, List.take_zero, List.mem_singleton] at he
      rw [hL] at hsorted hperm
      rw [he]
      have hg2 : g ∈ a :: t := hperm.mem_iff.mpr hg
      rcases List.mem_cons.mp hg2 with hga | hgt
      · rw [hga]
      · exact (List.sorted_cons.mp hsorted).1 g hgt

/-- Witness for C2 amended at the concrete demo area store. -/
theorem witness_C2 :
    query_area_with_most_hazards areaStore (some "beta") 2 =
      query_area_with_most_hazards areaStore none 10
    ∧ (query_area_with_most_hazards areaStore (some "beta") 2).length ≤ 1
    ∧ (1 : Nat) ≤ 2 :=
  ⟨(claim_C2 areaStore (some "beta") none 2 10).1,
   (claim_C2 areaStore (some "beta") none 2 10).2.1,
   (claim_C2 areaStore (some "beta") none 2 10).2.2 (some "Alpha", 2) (by decide)
     (some "Beta", 1) (by decide)⟩

end HazardMCP
